import Mathlib

/-!
Verification of the bezier-segment chain-synchronization model of
`src/state/BezierSegmentState.ts` (repository TarVK/3D-line-sweep).

The segment entity owns four point fields (`start`, `startControl`,
`endControl`, `end`) plus two relation fields (`previous`, `next`) holding
references to neighbor segments.  References are modelled as natural-number
identities into a world map; all methods of the class are embedded as
state transformers on that world, following the source statement by
statement (including the exact order of field reads and writes, the
reference-identity early-return checks, and the `sync` / `copyDirection`
default arguments).

Coordinates are idealized as real numbers.  The `Vec2`/`Vec3` vector
utility class is not part of the provided sources, so its operations are
modelled from the spec (section 4.1); everything else is translated
directly from `BezierSegmentState.ts`.
-/

noncomputable section

/-- Modelled from the spec: the 2D vector value type of the missing
`src/util/Vec2` module ("value semantics, no mutation"). Coordinates are
idealized as real numbers. -/
structure Vec where
  x : ℝ
  y : ℝ
deriving DecidableEq

namespace Vec

/-- Modelled from the spec: componentwise vector addition. -/
def add (a b : Vec) : Vec := ⟨a.x + b.x, a.y + b.y⟩

/-- Modelled from the spec: `sub(a,b) = a - b`, componentwise. -/
def sub (a b : Vec) : Vec := ⟨a.x - b.x, a.y - b.y⟩

/-- Modelled from the spec: multiplication by a scalar. -/
def mul (a : Vec) (r : ℝ) : Vec := ⟨a.x * r, a.y * r⟩

/-- Modelled from the spec: `length` is the Euclidean norm. -/
def length (a : Vec) : ℝ := Real.sqrt (a.x ^ 2 + a.y ^ 2)

/-- Modelled from the spec: `normalize` divides by the length; the spec
leaves the zero-length case to be "a defined zero/guard value — decide and
document": this model documents the guard value as the zero vector. -/
def normalize (a : Vec) : Vec :=
  if a.length = 0 then ⟨0, 0⟩ else ⟨a.x / a.length, a.y / a.length⟩

end Vec

/-- One `BezierSegmentState` object: the four observable point fields and
the two neighbor-relation fields (references modelled as identities).
The source field `end` is called `endPt` here (`end` is reserved in Lean). -/
structure Segment where
  start : Vec
  startControl : Vec
  endControl : Vec
  endPt : Vec
  previous : Option ℕ
  next : Option ℕ
deriving DecidableEq

instance : Inhabited Segment :=
  ⟨⟨⟨0, 0⟩, ⟨0, 0⟩, ⟨0, 0⟩, ⟨0, 0⟩, none, none⟩⟩

namespace Segment

/-- The four-point constructor branch (`end && endControl` truthy):
`start` and `end` are stored as given while the control fields are stored
as `startControl.sub(start)` and `endControl.sub(end)`, and no neighbors
are linked. -/
def mkBezierSegmentState (start startControl endControl endPt : Vec) : Segment :=
  { start := start
    startControl := startControl.sub start
    endControl := endControl.sub endPt
    endPt := endPt
    previous := none
    next := none }

/-- Source getter `getStart`: returns the `start` field. -/
def getStart (s : Segment) : Vec := s.start

/-- Source getter `getEnd`: returns the `end` field. -/
def getEnd (s : Segment) : Vec := s.endPt

/-- Source getter `getStartControl`: returns the raw `startControl` field. -/
def getStartControl (s : Segment) : Vec := s.startControl

/-- Source getter `getEndControl`: returns the raw `endControl` field. -/
def getEndControl (s : Segment) : Vec := s.endControl

/-- Source getter `getStartControlDelta`: `startControl.sub(start)`. -/
def getStartControlDelta (s : Segment) : Vec := s.startControl.sub s.start

/-- Source getter `getEndControlDelta`: `endControl.sub(end)`. -/
def getEndControlDelta (s : Segment) : Vec := s.endControl.sub s.endPt

/-- Source getter `getStartDirection`: `startControl.sub(start).normalize()`. -/
def getStartDirection (s : Segment) : Vec := (s.startControl.sub s.start).normalize

/-- Source getter `getEndDirection`: `endControl.sub(end).normalize()`. -/
def getEndDirection (s : Segment) : Vec := (s.endControl.sub s.endPt).normalize

/-- Source getter `getPreviousSegment`: returns the `previous` relation field. -/
def getPreviousSegment (s : Segment) : Option ℕ := s.previous

/-- Source getter `getNextSegment`: returns the `next` relation field. -/
def getNextSegment (s : Segment) : Option ℕ := s.next

/-- Source setter `setStartControlDelta(vec)`: the source stores
`vec.sub(this.start.get())` into the `startControl` field. -/
def setStartControlDelta (s : Segment) (v : Vec) : Segment :=
  { s with startControl := v.sub s.start }

/-- Source setter `setEndControlDelta(vec)`: the source stores
`vec.sub(this.end.get())` into the `endControl` field. -/
def setEndControlDelta (s : Segment) (v : Vec) : Segment :=
  { s with endControl := v.sub s.endPt }

/-- Source setter `setStartDirection(direction)`: reads the current
start-control-delta length, then calls
`setStartControlDelta(direction.normalize().mul(length))`. -/
def setStartDirection (s : Segment) (direction : Vec) : Segment :=
  s.setStartControlDelta (direction.normalize.mul s.getStartControlDelta.length)

/-- Source setter `setEndDirection(direction)`: reads the current
end-control-delta length, then calls
`setEndControlDelta(direction.normalize().mul(length))`. -/
def setEndDirection (s : Segment) (direction : Vec) : Segment :=
  s.setEndControlDelta (direction.normalize.mul s.getEndControlDelta.length)

/-- Source method `moveStart(vec)`: computes `delta = startControl - start`,
sets `startControl := vec.add(delta)` and then `start := vec`. -/
def moveStart (s : Segment) (v : Vec) : Segment :=
  { s with startControl := v.add (s.startControl.sub s.start), start := v }

/-- Source method `moveEnd(vec)`: computes `delta = endControl - end`, sets
`endControl := vec.add(delta)` and then `end := vec`. -/
def moveEnd (s : Segment) (v : Vec) : Segment :=
  { s with endControl := v.add (s.endControl.sub s.endPt), endPt := v }

end Segment

/-- The heap of segment objects: every identity denotes a segment. -/
def World : Type := ℕ → Segment

/-- Mutate the segment object with identity `i` in place. -/
def updateSeg (w : World) (i : ℕ) (f : Segment → Segment) : World :=
  fun j => if j = i then f (w j) else w j

/-- Source call `setStart(vec, false)`: only writes the `start` field of
segment `i`. -/
def setStartNS (w : World) (i : ℕ) (v : Vec) : World :=
  updateSeg w i fun s => { s with start := v }

/-- Source call `setEnd(vec, false)`: only writes the `end` field of
segment `i`. -/
def setEndNS (w : World) (i : ℕ) (v : Vec) : World :=
  updateSeg w i fun s => { s with endPt := v }

/-- Source method `setStart(vec, sync)`: writes the `start` field; when
`sync` is true and a `previous` neighbor exists, calls
`prev.setEnd(vec, false)` on it. -/
def setStart (w : World) (i : ℕ) (v : Vec) (sync : Bool) : World :=
  let w1 := setStartNS w i v
  if sync then
    match (w1 i).previous with
    | some p => setEndNS w1 p v
    | none => w1
  else w1

/-- Source method `setEnd(vec, sync)`: writes the `end` field; when `sync`
is true and a `next` neighbor exists, calls `next.setStart(vec, false)` on
it. -/
def setEnd (w : World) (i : ℕ) (v : Vec) (sync : Bool) : World :=
  let w1 := setEndNS w i v
  if sync then
    match (w1 i).next with
    | some n => setStartNS w1 n v
    | none => w1
  else w1

/-- World-level `moveStart(vec)` on segment `i`. -/
def moveStartW (w : World) (i : ℕ) (v : Vec) : World :=
  updateSeg w i fun s => s.moveStart v

/-- World-level `moveEnd(vec)` on segment `i`. -/
def moveEndW (w : World) (i : ℕ) (v : Vec) : World :=
  updateSeg w i fun s => s.moveEnd v

/-- Source call `setPreviousSegment(segment, false, copyDir)` — the
`sync = false` instantiation, which performs no calls into other segments:
early return when `segment == current` (reference identity on the relation
field), otherwise either establish the link (write `previous`, copy the
neighbor's end point into `start`, optionally copy the negated end
direction of the neighbor into the start direction) or clear `previous`. -/
def setPrevNS (w : World) (i : ℕ) (segOpt : Option ℕ) (copyDir : Bool) : World :=
  let current := (w i).previous
  if segOpt = current then w
  else
    match segOpt with
    | some s =>
      let w2 := updateSeg w i fun t => { t with previous := some s }
      let newStart := (w2 s).getEnd
      let w3 := updateSeg w2 i fun t => { t with start := newStart }
      if copyDir then
        updateSeg w3 i fun t => t.setStartDirection (((w3 s).getEndDirection).mul (-1))
      else w3
    | none => updateSeg w i fun t => { t with previous := none }

/-- Source call `setNextSegment(segment, false, copyDir)` — the
`sync = false` instantiation, which performs no calls into other segments.
Note: the source writes the new neighbor's start point into `this.start`
(`const newEnd = segment.getStart(); this.start.set(newEnd);`), not into
`this.end`; the model preserves that behavior faithfully. -/
def setNextNS (w : World) (i : ℕ) (segOpt : Option ℕ) (copyDir : Bool) : World :=
  let current := (w i).next
  if segOpt = current then w
  else
    match segOpt with
    | some s =>
      let w2 := updateSeg w i fun t => { t with next := some s }
      let newEnd := (w2 s).getStart
      let w3 := updateSeg w2 i fun t => { t with start := newEnd }
      if copyDir then
        updateSeg w3 i fun t => t.setEndDirection (((w3 s).getStartDirection).mul (-1))
      else w3
    | none => updateSeg w i fun t => { t with next := none }

/-- Source method `setPreviousSegment(segment, sync, copyDirection)` with
the `sync` argument explicit.  When unlinking a currently linked neighbor
it calls `current.setNextSegment(null, false)` (whose `copyDirection`
parameter is omitted at that call site and therefore `undefined`, i.e.
falsy), and the reciprocal call is `segment.setNextSegment(this, false)`
(again with `copyDirection` omitted and falsy). -/
def setPreviousSegment (w : World) (i : ℕ) (segOpt : Option ℕ)
    (sync copyDir : Bool) : World :=
  let current := (w i).previous
  if segOpt = current then w
  else
    let w1 := match current with
      | some c => if sync then setNextNS w c none false else w
      | none => w
    match segOpt with
    | some s =>
      let w2 := updateSeg w1 i fun t => { t with previous := some s }
      let newStart := (w2 s).getEnd
      let w3 := updateSeg w2 i fun t => { t with start := newStart }
      let w4 :=
        if copyDir then
          updateSeg w3 i fun t => t.setStartDirection (((w3 s).getEndDirection).mul (-1))
        else w3
      if sync then setNextNS w4 s (some i) false else w4
    | none => updateSeg w1 i fun t => { t with previous := none }

/-- Source method `setNextSegment(segment, sync, copyDirection)` with the
`sync` argument explicit.  When unlinking a currently linked neighbor it
calls `current.setPreviousSegment(null, false)`, and the reciprocal call
is `segment.setPreviousSegment(this, false)`; at both call sites the
`copyDirection` parameter is omitted, and `setPreviousSegment` defaults it
to `true`. -/
def setNextSegment (w : World) (i : ℕ) (segOpt : Option ℕ)
    (sync copyDir : Bool) : World :=
  let current := (w i).next
  if segOpt = current then w
  else
    let w1 := match current with
      | some c => if sync then setPrevNS w c none true else w
      | none => w
    match segOpt with
    | some s =>
      let w2 := updateSeg w1 i fun t => { t with next := some s }
      let newEnd := (w2 s).getStart
      let w3 := updateSeg w2 i fun t => { t with start := newEnd }
      let w4 :=
        if copyDir then
          updateSeg w3 i fun t => t.setEndDirection (((w3 s).getStartDirection).mul (-1))
        else w3
      if sync then setPrevNS w4 s (some i) true else w4
    | none => updateSeg w1 i fun t => { t with next := none }

/-- Source call `setPreviousSegment(segment)` with both optional arguments
at their defaults: `sync = true` and `copyDirection = true`. -/
def setPreviousSegmentD (w : World) (i : ℕ) (segOpt : Option ℕ) : World :=
  setPreviousSegment w i segOpt true true

/-- Source call `setNextSegment(segment)` with both optional arguments at
their defaults: `sync = true` and `copyDirection` left `undefined`, i.e.
falsy. -/
def setNextSegmentD (w : World) (i : ℕ) (segOpt : Option ℕ) : World :=
  setNextSegment w i segOpt true false

/-! ### Concrete segments and worlds used by the concrete theorems -/

/-- The segment of the C7 failing input: `start = (1,0)`,
`startControl = (3,0)` (so the start-control delta is `(2,0)`, length 2). -/
def segC7 : Segment :=
  { start := ⟨1, 0⟩, startControl := ⟨3, 0⟩, endControl := ⟨0, 0⟩, endPt := ⟨0, 0⟩,
    previous := none, next := none }

/-- Segment A of the C1 failing input: `start = (0,0)`, `end = (1,1)`. -/
def segA1 : Segment :=
  { start := ⟨0, 0⟩, startControl := ⟨0, 0⟩, endControl := ⟨6, 1⟩, endPt := ⟨1, 1⟩,
    previous := none, next := none }

/-- Segment B of the C1 failing input: `start = (2,2)`, `end = (3,3)`. -/
def segB1 : Segment :=
  { start := ⟨2, 2⟩, startControl := ⟨2, 5⟩, endControl := ⟨3, 0⟩, endPt := ⟨3, 3⟩,
    previous := none, next := none }

/-- The two-segment world of the C1 failing input: A has identity 0, B has
identity 1, unlinked. -/
def wC1 : World := fun j => if j = 0 then segA1 else segB1

/-- Segment A of the C2 scenario: `start = (0,0)`, `end = (5,5)`. -/
def segA2 : Segment :=
  { start := ⟨0, 0⟩, startControl := ⟨1, 0⟩, endControl := ⟨4, 5⟩, endPt := ⟨5, 5⟩,
    previous := none, next := none }

/-- Segment B of the C2 scenario: `start = (0,0)`. -/
def segB2 : Segment :=
  { start := ⟨0, 0⟩, startControl := ⟨0, 3⟩, endControl := ⟨9, 9⟩, endPt := ⟨10, 10⟩,
    previous := none, next := none }

/-- The two-segment world of the C2 scenario: A has identity 0, B has
identity 1, unlinked. -/
def wC2 : World := fun j => if j = 0 then segA2 else segB2

/-- Segment A of the C9 counterexample: linked with `next = 1`. -/
def segA9 : Segment :=
  { start := ⟨0, 0⟩, startControl := ⟨1, 0⟩, endControl := ⟨4, 5⟩, endPt := ⟨5, 5⟩,
    previous := none, next := some 1 }

/-- Segment B of the C9 counterexample: linked with `previous = 0`. -/
def segB9 : Segment :=
  { start := ⟨5, 5⟩, startControl := ⟨6, 5⟩, endControl := ⟨9, 9⟩, endPt := ⟨10, 10⟩,
    previous := some 0, next := none }

/-- The linked pair of the C9 counterexample: A (identity 0) and B
(identity 1) with `A.next = B` and `B.previous = A`. -/
def wC9 : World := fun j => if j = 0 then segA9 else segB9

/-- Segment C of the C3 counterexample (identity 2, initially unlinked). -/
def segC3 : Segment :=
  { start := ⟨7, 0⟩, startControl := ⟨7, 1⟩, endControl := ⟨8, 0⟩, endPt := ⟨8, 1⟩,
    previous := none, next := none }

/-- The three-segment world of the C3 counterexample: A (identity 0),
B (identity 1) and C (identity 2), all initially unlinked. -/
def wC3 : World := fun j => if j = 0 then segA1 else if j = 1 then segB1 else segC3

/-- Segment A of the C10/C5 scenarios: end point `(0,0)` with end control
`(3,4)` (end direction `(3/5,4/5)`). -/
def segA10 : Segment :=
  { start := ⟨9, 9⟩, startControl := ⟨9, 8⟩, endControl := ⟨3, 4⟩, endPt := ⟨0, 0⟩,
    previous := none, next := none }

/-- Segment B of the C10 scenario: start `(0,0)` with start control `(1,0)`
(start direction `(1,0)`, delta length 1). -/
def segB10 : Segment :=
  { start := ⟨0, 0⟩, startControl := ⟨1, 0⟩, endControl := ⟨5, 5⟩, endPt := ⟨6, 6⟩,
    previous := none, next := none }

/-- The two-segment world of the C10 scenario (A = 0, B = 1, unlinked). -/
def wC10 : World := fun j => if j = 0 then segA10 else segB10

/-- Segment A of the C5 failing input: `end = (12,0)`,
`endControl = (12,7)` — end-control delta `(0,7)` (non-degenerate). -/
def segA5 : Segment :=
  { start := ⟨9, 9⟩, startControl := ⟨9, 8⟩, endControl := ⟨12, 7⟩, endPt := ⟨12, 0⟩,
    previous := none, next := none }

/-- Segment B of the C5 failing input: `start = (0,0)`,
`startControl = (0,5)` — start-control delta `(0,5)` (non-degenerate). -/
def segB5 : Segment :=
  { start := ⟨0, 0⟩, startControl := ⟨0, 5⟩, endControl := ⟨1, 9⟩, endPt := ⟨2, 9⟩,
    previous := none, next := none }

/-- The two-segment world of the C5 failing input (A = 0, B = 1, unlinked). -/
def wC5 : World := fun j => if j = 0 then segA5 else segB5

/-! ### Basic lemmas and evaluation helpers -/

@[simp]
theorem updateSeg_self (w : World) (i : ℕ) (f : Segment → Segment) :
    updateSeg w i f i = f (w i) := by
  simp [updateSeg]

theorem updateSeg_ne (w : World) (i j : ℕ) (f : Segment → Segment) (h : j ≠ i) :
    updateSeg w i f j = w j := by
  simp [updateSeg, h]

@[ext]
theorem Vec.ext {a b : Vec} (hx : a.x = b.x) (hy : a.y = b.y) : a = b := by
  cases a; cases b; simp_all

theorem Vec.length_eval (a b c : ℝ) (hc : 0 ≤ c) (h : a ^ 2 + b ^ 2 = c ^ 2) :
    Vec.length ⟨a, b⟩ = c := by
  simp only [Vec.length, h]
  exact Real.sqrt_sq hc

theorem Vec.normalize_eval (a b c : ℝ) (hc : 0 < c) (h : a ^ 2 + b ^ 2 = c ^ 2) :
    Vec.normalize ⟨a, b⟩ = ⟨a / c, b / c⟩ := by
  have hl : Vec.length ⟨a, b⟩ = c := Vec.length_eval a b c hc.le h
  simp [Vec.normalize, hl, hc.ne']

/-! ### Frame lemmas for the non-reciprocal chain calls -/

theorem setPrevNS_next (w : World) (i : ℕ) (so : Option ℕ) (cd : Bool) (j : ℕ) :
    ((setPrevNS w i so cd) j).next = (w j).next := by
  unfold setPrevNS
  by_cases h : so = (w i).previous
  · simp [h]
  · cases so with
    | none => by_cases hj : j = i <;> simp [h, updateSeg, hj]
    | some s =>
      by_cases hj : j = i <;> cases cd <;>
        simp [h, updateSeg, hj, Segment.setStartDirection, Segment.setStartControlDelta]

theorem setPrevNS_frame (w : World) (i : ℕ) (so : Option ℕ) (cd : Bool) (j : ℕ)
    (hj : j ≠ i) : (setPrevNS w i so cd) j = w j := by
  unfold setPrevNS
  by_cases h : so = (w i).previous
  · simp [h]
  · cases so with
    | none => simp [h, updateSeg, hj]
    | some s => cases cd <;> simp [h, updateSeg, hj]

theorem setPrevNS_previous_self (w : World) (i s : ℕ) (cd : Bool) :
    ((setPrevNS w i (some s) cd) i).previous = some s := by
  unfold setPrevNS
  by_cases h : some s = (w i).previous
  · simp [h.symm]
  · cases cd <;>
      simp [h, updateSeg, Segment.setStartDirection, Segment.setStartControlDelta]

theorem setPrevNS_previous_none (w : World) (i : ℕ) (cd : Bool) :
    ((setPrevNS w i none cd) i).previous = none := by
  unfold setPrevNS
  by_cases h : (none : Option ℕ) = (w i).previous
  · simp [h.symm]
  · simp [h, updateSeg]

theorem setPrevNS_endControl (w : World) (i : ℕ) (so : Option ℕ) (cd : Bool) (j : ℕ) :
    ((setPrevNS w i so cd) j).endControl = (w j).endControl := by
  unfold setPrevNS
  by_cases h : so = (w i).previous
  · simp [h]
  · cases so with
    | none => by_cases hj : j = i <;> simp [h, updateSeg, hj]
    | some s =>
      by_cases hj : j = i <;> cases cd <;>
        simp [h, updateSeg, hj, Segment.setStartDirection, Segment.setStartControlDelta]

theorem setNextNS_previous (w : World) (i : ℕ) (so : Option ℕ) (cd : Bool) (j : ℕ) :
    ((setNextNS w i so cd) j).previous = (w j).previous := by
  unfold setNextNS
  by_cases h : so = (w i).next
  · simp [h]
  · cases so with
    | none => by_cases hj : j = i <;> simp [h, updateSeg, hj]
    | some s =>
      by_cases hj : j = i <;> cases cd <;>
        simp [h, updateSeg, hj, Segment.setEndDirection, Segment.setEndControlDelta]

theorem setNextNS_frame (w : World) (i : ℕ) (so : Option ℕ) (cd : Bool) (j : ℕ)
    (hj : j ≠ i) : (setNextNS w i so cd) j = w j := by
  unfold setNextNS
  by_cases h : so = (w i).next
  · simp [h]
  · cases so with
    | none => simp [h, updateSeg, hj]
    | some s => cases cd <;> simp [h, updateSeg, hj]

theorem setNextNS_next_self (w : World) (i s : ℕ) (cd : Bool) :
    ((setNextNS w i (some s) cd) i).next = some s := by
  unfold setNextNS
  by_cases h : some s = (w i).next
  · simp [h.symm]
  · cases cd <;>
      simp [h, updateSeg, Segment.setEndDirection, Segment.setEndControlDelta]

theorem setNextNS_next_none (w : World) (i : ℕ) (cd : Bool) :
    ((setNextNS w i none cd) i).next = none := by
  unfold setNextNS
  by_cases h : (none : Option ℕ) = (w i).next
  · simp [h.symm]
  · simp [h, updateSeg]

theorem setNextNS_endControl_nocopy (w : World) (i : ℕ) (so : Option ℕ) (j : ℕ) :
    ((setNextNS w i so false) j).endControl = (w j).endControl := by
  unfold setNextNS
  by_cases h : so = (w i).next
  · simp [h]
  · cases so with
    | none => by_cases hj : j = i <;> simp [h, updateSeg, hj]
    | some s => by_cases hj : j = i <;> simp [h, updateSeg, hj]

theorem setNextSegment_link (w : World) (a b : ℕ) (c : Bool)
    (h : (w a).next ≠ some b) :
    ((setNextSegment w a (some b) true c) a).next = some b ∧
    ((setNextSegment w a (some b) true c) b).previous = some a := by
  have hne : ¬(some b = (w a).next) := fun h' => h h'.symm
  cases hcur : (w a).next with
  | none =>
    cases c <;>
      simp [setNextSegment, hcur, setPrevNS_next, setPrevNS_previous_self, updateSeg,
        Segment.setEndDirection, Segment.setEndControlDelta]
  | some p =>
    rw [hcur] at hne
    cases c <;>
      simp [setNextSegment, hcur, hne, setPrevNS_next, setPrevNS_previous_self, updateSeg,
        Segment.setEndDirection, Segment.setEndControlDelta]

theorem setPreviousSegment_link (w : World) (a b : ℕ) (d : Bool)
    (h : (w b).previous ≠ some a) :
    ((setPreviousSegment w b (some a) true d) a).next = some b ∧
    ((setPreviousSegment w b (some a) true d) b).previous = some a := by
  have hne : ¬(some a = (w b).previous) := fun h' => h h'.symm
  cases hcur : (w b).previous with
  | none =>
    cases d <;>
      simp [setPreviousSegment, hcur, setNextNS_previous, setNextNS_next_self, updateSeg,
        Segment.setStartDirection, Segment.setStartControlDelta]
  | some p =>
    rw [hcur] at hne
    cases d <;>
      simp [setPreviousSegment, hcur, hne, setNextNS_previous, setNextNS_next_self, updateSeg,
        Segment.setStartDirection, Segment.setStartControlDelta]

theorem setStart_startControl (w : World) (i : ℕ) (v : Vec) :
    ((setStart w i v true) i).startControl = (w i).startControl ∧
    ((setStart w i v true) i).start = v := by
  unfold setStart setStartNS setEndNS
  cases hp : (updateSeg w i (fun s => { s with start := v }) i).previous with
  | none => simp [hp, updateSeg]
  | some p => by_cases hpi : i = p <;> simp [hp, updateSeg, hpi]

theorem setEnd_endControl (w : World) (i : ℕ) (v : Vec) :
    ((setEnd w i v true) i).endControl = (w i).endControl ∧
    ((setEnd w i v true) i).endPt = v := by
  unfold setEnd setEndNS setStartNS
  cases hp : (updateSeg w i (fun s => { s with endPt := v }) i).next with
  | none => simp [hp, updateSeg]
  | some p => by_cases hpi : i = p <;> simp [hp, updateSeg, hpi]

/-! ### Evaluation of the C10/C5 scenarios -/

theorem wC10_direction_copy_eval :
    (wC10 1).getStartControl = ⟨1, 0⟩ ∧
    (wC10 1).getStartDirection = ⟨1, 0⟩ ∧
    ((setNextSegmentD wC10 0 (some 1)) 1).getStartControl = ⟨-(3 / 5), -(4 / 5)⟩ ∧
    ((setPreviousSegmentD wC10 1 (some 0)) 1).getStartControl = ⟨-(3 / 5), -(4 / 5)⟩ ∧
    ((setPreviousSegmentD wC10 1 (some 0)) 1).getStartDirection = ⟨-(3 / 5), -(4 / 5)⟩ := by
  have h34 : Vec.normalize ⟨(3 : ℝ), 4⟩ = ⟨3 / 5, 4 / 5⟩ := by
    simpa using Vec.normalize_eval 3 4 5 (by norm_num) (by norm_num)
  have h10 : Vec.normalize ⟨(1 : ℝ), 0⟩ = ⟨1, 0⟩ := by
    simpa using Vec.normalize_eval 1 0 1 one_pos (by norm_num)
  have hl10 : Vec.length ⟨(1 : ℝ), 0⟩ = 1 := Vec.length_eval 1 0 1 (by norm_num) (by norm_num)
  have hneg : Vec.normalize ⟨-(3 / 5 : ℝ), -(4 / 5)⟩ = ⟨-(3 / 5), -(4 / 5)⟩ := by
    simpa using Vec.normalize_eval (-(3 / 5)) (-(4 / 5)) 1 one_pos (by norm_num)
  refine ⟨?_, ?_, ?_, ?_, ?_⟩
  · simp [wC10, segB10, Segment.getStartControl]
  · simp [wC10, segB10, Segment.getStartDirection, Vec.sub]
    norm_num [h10]
  · simp [setNextSegmentD, setNextSegment, setPrevNS, wC10, segA10, segB10, updateSeg,
      Segment.getStartControl, Segment.getStart, Segment.getEnd, Segment.getEndDirection,
      Segment.getStartControlDelta, Segment.setStartDirection, Segment.setStartControlDelta,
      Vec.sub, Vec.mul]
    norm_num [h34, hl10]
    norm_num [hneg, Vec.mul, Vec.sub]
  · simp [setPreviousSegmentD, setPreviousSegment, setNextNS, wC10, segA10, segB10, updateSeg,
      Segment.getStartControl, Segment.getStart, Segment.getEnd, Segment.getEndDirection,
      Segment.getStartControlDelta, Segment.setStartDirection, Segment.setStartControlDelta,
      Vec.sub, Vec.mul]
    norm_num [h34, hl10]
    norm_num [hneg, Vec.mul, Vec.sub]
  · simp [setPreviousSegmentD, setPreviousSegment, setNextNS, wC10, segA10, segB10, updateSeg,
      Segment.getStartControl, Segment.getStartDirection, Segment.getStart, Segment.getEnd,
      Segment.getEndDirection, Segment.getStartControlDelta, Segment.setStartDirection,
      Segment.setStartControlDelta, Vec.sub, Vec.mul]
    norm_num [h34, hl10]
    norm_num [hneg, Vec.mul, Vec.sub]

theorem wC5_after_fields :
    ((setNextSegment wC5 0 (some 1) true true) 0).getEndDirection = ⟨-(24 / 25), -(7 / 25)⟩ ∧
    ((setNextSegment wC5 0 (some 1) true true) 1).startControl = ⟨12 / 25, 91 / 25⟩ ∧
    ((setNextSegment wC5 0 (some 1) true true) 1).start = ⟨12, 0⟩ := by
  have h05 : Vec.normalize ⟨(0 : ℝ), 5⟩ = ⟨0, 1⟩ := by
    simpa using Vec.normalize_eval 0 5 5 (by norm_num) (by norm_num)
  have h01n : Vec.normalize ⟨(0 : ℝ), -1⟩ = ⟨0, -1⟩ := by
    simpa using Vec.normalize_eval 0 (-1) 1 one_pos (by norm_num)
  have hl07 : Vec.length ⟨(0 : ℝ), 7⟩ = 7 := Vec.length_eval 0 7 7 (by norm_num) (by norm_num)
  have h247 : Vec.normalize ⟨(-24 : ℝ), -7⟩ = ⟨-(24 / 25), -(7 / 25)⟩ := by
    simpa [neg_div] using Vec.normalize_eval (-24) (-7) 25 (by norm_num) (by norm_num)
  have h2425 : Vec.normalize ⟨(24 / 25 : ℝ), 7 / 25⟩ = ⟨24 / 25, 7 / 25⟩ := by
    simpa using Vec.normalize_eval (24 / 25) (7 / 25) 1 one_pos (by norm_num)
  have hl125 : Vec.length ⟨(-12 : ℝ), 5⟩ = 13 :=
    Vec.length_eval (-12) 5 13 (by norm_num) (by norm_num)
  refine ⟨?_, ?_, ?_⟩
  · simp [setNextSegment, setPrevNS, wC5, segA5, segB5, updateSeg,
      Segment.getEndDirection, Segment.getStartDirection, Segment.getStart, Segment.getEnd,
      Segment.setEndDirection, Segment.setEndControlDelta, Segment.getEndControlDelta,
      Segment.setStartDirection, Segment.setStartControlDelta, Segment.getStartControlDelta,
      Vec.sub, Vec.mul]
    norm_num [h05, hl07]
    norm_num [h01n, Vec.mul, Vec.sub]
    norm_num [h247]
  · simp [setNextSegment, setPrevNS, wC5, segA5, segB5, updateSeg,
      Segment.getEndDirection, Segment.getStartDirection, Segment.getStart, Segment.getEnd,
      Segment.setEndDirection, Segment.setEndControlDelta, Segment.getEndControlDelta,
      Segment.setStartDirection, Segment.setStartControlDelta, Segment.getStartControlDelta,
      Vec.sub, Vec.mul]
    norm_num [h05, hl07]
    norm_num [h01n, Vec.mul, Vec.sub]
    norm_num [h247, hl125]
    norm_num [h2425, Vec.mul, Vec.sub]
  · simp [setNextSegment, setPrevNS, wC5, segA5, segB5, updateSeg,
      Segment.getEndDirection, Segment.getStartDirection, Segment.getStart, Segment.getEnd,
      Segment.setEndDirection, Segment.setEndControlDelta, Segment.getEndControlDelta,
      Segment.setStartDirection, Segment.setStartControlDelta, Segment.getStartControlDelta,
      Vec.sub, Vec.mul]

/-! ### The claim theorems -/

/-- C1: after `A.setNextSegment(B)` with default arguments, B's start point
is not copied into A's end: A's end stays `(1,1)` (it is never written)
while A's START is overwritten with B's old start `(2,2)`; the observable
equality `A.getEnd() == B.getStart()` still holds, but only because the
reciprocal sync call copies A's end into B's start. -/
theorem c1_next_writes_start :
    ((setNextSegmentD wC1 0 (some 1)) 0).getEnd = ⟨1, 1⟩ ∧
    ((setNextSegmentD wC1 0 (some 1)) 0).getStart = ⟨2, 2⟩ ∧
    ((setNextSegmentD wC1 0 (some 1)) 1).getStart = ⟨1, 1⟩ ∧
    ((setNextSegmentD wC1 0 (some 1)) 0).getEnd = ((setNextSegmentD wC1 0 (some 1)) 1).getStart := by
  simp [setNextSegmentD, setNextSegment, setPrevNS, wC1, segA1, segB1, updateSeg,
    Segment.getStart, Segment.getEnd, Segment.setStartDirection, Segment.setStartControlDelta]

/-- C2: after `B.setPreviousSegment(A)` with default arguments,
`B.getStart()` is `(5,5)` as the claim says, but A is NOT unaffected: the
reciprocal `A.setNextSegment(B, false)` overwrites A's `start` field
(originally `(0,0)`) with B's updated start `(5,5)`, because
`setNextSegment` writes the neighbor's start into `this.start`. -/
theorem c2_prev_clobbers_neighbor_start :
    ((setPreviousSegmentD wC2 1 (some 0)) 1).getStart = ⟨5, 5⟩ ∧
    (wC2 0).getStart = ⟨0, 0⟩ ∧
    ((setPreviousSegmentD wC2 1 (some 0)) 0).getStart = ⟨5, 5⟩ := by
  simp [setPreviousSegmentD, setPreviousSegment, setNextNS, wC2, segA2, segB2, updateSeg,
    Segment.getStart, Segment.getEnd, Segment.setStartDirection, Segment.setStartControlDelta]

/-- C3 counterexample: the symmetry claim is not true for every two
segments.  Using only default public calls, `A.setNextSegment(B)` then
`C.setNextSegment(B)` reaches a state with `A.next = B` but
`B.previous = C` (the non-reciprocal nested call does not unlink A); a
subsequent `A.setNextSegment(B, sync=true)` returns at the
reference-identity check, so `B.getPreviousSegment()` stays C, not A. -/
theorem c3_symmetry_counterexample :
    ((setNextSegment (setNextSegmentD (setNextSegmentD wC3 0 (some 1)) 2 (some 1))
        0 (some 1) true false) 0).getNextSegment = some 1 ∧
    ((setNextSegment (setNextSegmentD (setNextSegmentD wC3 0 (some 1)) 2 (some 1))
        0 (some 1) true false) 1).getPreviousSegment = some 2 ∧
    ((setNextSegment (setNextSegmentD (setNextSegmentD wC3 0 (some 1)) 2 (some 1))
        0 (some 1) true false) 1).getPreviousSegment ≠ some 0 := by
  simp [setNextSegmentD, setNextSegment, setPrevNS, wC3, segA1, segB1, segC3, updateSeg,
    Segment.getPreviousSegment, Segment.getNextSegment, Segment.getStart, Segment.getEnd,
    Segment.setStartDirection, Segment.setStartControlDelta]

/-- C3 amended: the symmetry postcondition holds provided the caller's
side of the link is not already set to the target segment (when it is, the
reference-identity check makes the call return immediately, leaving the
other side untouched): if `A.next ≠ B` beforehand, then after
`A.setNextSegment(B, sync=true)` (any `copyDirection`), `A.getNextSegment()`
is B and `B.getPreviousSegment()` is A; symmetrically, if `B.previous ≠ A`
beforehand, then after `B.setPreviousSegment(A, sync=true)`,
`A.getNextSegment()` is B and `B.getPreviousSegment()` is A. -/
theorem c3_link_symmetry (w : World) (a b : ℕ) (c d : Bool) :
    ((w a).next ≠ some b →
      ((setNextSegment w a (some b) true c) a).getNextSegment = some b ∧
      ((setNextSegment w a (some b) true c) b).getPreviousSegment = some a) ∧
    ((w b).previous ≠ some a →
      ((setPreviousSegment w b (some a) true d) a).getNextSegment = some b ∧
      ((setPreviousSegment w b (some a) true d) b).getPreviousSegment = some a) := by
  constructor
  · intro h1
    simpa [Segment.getNextSegment, Segment.getPreviousSegment] using
      setNextSegment_link w a b c h1
  · intro h2
    simpa [Segment.getNextSegment, Segment.getPreviousSegment] using
      setPreviousSegment_link w a b d h2

/-- Witness for the C3 amended theorem: at the concrete unlinked pair of
segments 0 and 1 the hypothesis `(w 0).next ≠ some 1` holds and the links
are established on both sides. -/
theorem c3_link_symmetry_witness :
    ((setNextSegment wC1 0 (some 1) true false) 0).getNextSegment = some 1 ∧
    ((setNextSegment wC1 0 (some 1) true false) 1).getPreviousSegment = some 0 :=
  (c3_link_symmetry wC1 0 1 false true).1 (by simp [wC1, segA1])

/-- C4: replacement.  If A is linked to B as next, then `A.setNextSegment(C)`
with default arguments first unlinks B non-reciprocally (B's `previous`
becomes null) and then establishes the new link, whose reciprocal call
gives C's `previous` the value A. -/
theorem c4_replacement (w : World) (a b c : ℕ) (hab : a ≠ b) (hbc : b ≠ c) (hac : a ≠ c)
    (h1 : (w a).next = some b) (h2 : (w b).previous = some a) :
    ((setNextSegmentD w a (some c)) b).getPreviousSegment = none ∧
    ((setNextSegmentD w a (some c)) c).getPreviousSegment = some a := by
  have hcb : ¬((some c : Option ℕ) = some b) := fun h => hbc (Option.some.inj h).symm
  have hba : b ≠ a := hab.symm
  constructor
  · simp only [setNextSegmentD]
    simp [setNextSegment, h1, hcb, Segment.getPreviousSegment]
    rw [setPrevNS_frame _ _ _ _ _ hbc, updateSeg_ne _ _ _ _ hba, updateSeg_ne _ _ _ _ hba,
      setPrevNS_previous_none]
  · simp only [setNextSegmentD]
    simp [setNextSegment, h1, hcb, Segment.getPreviousSegment]
    rw [setPrevNS_previous_self]

/-- Witness for C4 at a concrete three-segment world: A (identity 0) linked
to B (identity 1), then `A.setNextSegment(C)` with C = identity 2. -/
theorem c4_replacement_witness :
    ((setNextSegmentD wC9 0 (some 2)) 1).getPreviousSegment = none ∧
    ((setNextSegmentD wC9 0 (some 2)) 2).getPreviousSegment = some 0 :=
  c4_replacement wC9 0 1 2 (by decide) (by decide) (by decide)
    (by simp [wC9, segA9]) (by simp [wC9, segB9])

/-- C5: after `A.setNextSegment(B, sync=true, copyDirection=true)` on the
concrete non-degenerate pair of `wC5`, `A.getEndDirection()` is
`(-24/25,-7/25)` while the negation of `B.getStartDirection()` has a
positive x-component, so the two are not equal: the broken delta setters
(storing `vec.sub(anchor)` instead of `vec.add(anchor)`) and the
`this.start` write in `setNextSegment` destroy the direction link. -/
theorem c5_direction_not_negated :
    ((setNextSegment wC5 0 (some 1) true true) 0).getEndDirection = ⟨-(24 / 25), -(7 / 25)⟩ ∧
    0 < (((setNextSegment wC5 0 (some 1) true true) 1).getStartDirection.mul (-1)).x ∧
    ((setNextSegment wC5 0 (some 1) true true) 0).getEndDirection ≠
      ((setNextSegment wC5 0 (some 1) true true) 1).getStartDirection.mul (-1) := by
  obtain ⟨hA, hB1, hB2⟩ := wC5_after_fields
  have hdel : (((setNextSegment wC5 0 (some 1) true true) 1).startControl.sub
      ((setNextSegment wC5 0 (some 1) true true) 1).start) = ⟨-(288 / 25), 91 / 25⟩ := by
    rw [hB1, hB2]
    norm_num [Vec.sub]
  have hLpos : 0 < Vec.length ⟨(-(288 / 25) : ℝ), 91 / 25⟩ := by
    rw [Vec.length]
    apply Real.sqrt_pos.mpr
    norm_num
  have hdir : ((setNextSegment wC5 0 (some 1) true true) 1).getStartDirection =
      ⟨-(288 / 25) / Vec.length ⟨-(288 / 25), 91 / 25⟩,
        91 / 25 / Vec.length ⟨-(288 / 25), 91 / 25⟩⟩ := by
    rw [Segment.getStartDirection, hdel, Vec.normalize, if_neg hLpos.ne']
  have hxpos :
      0 < (((setNextSegment wC5 0 (some 1) true true) 1).getStartDirection.mul (-1)).x := by
    rw [hdir]
    show 0 < -(288 / 25) / Vec.length ⟨-(288 / 25), 91 / 25⟩ * (-1)
    have hrw : -(288 / 25) / Vec.length ⟨(-(288 / 25) : ℝ), 91 / 25⟩ * (-1) =
        288 / 25 / Vec.length ⟨-(288 / 25), 91 / 25⟩ := by
      ring
    rw [hrw]
    exact div_pos (by norm_num) hLpos
  refine ⟨hA, hxpos, ?_⟩
  intro heq
  rw [hA] at heq
  have hx := congrArg Vec.x heq
  simp only [] at hx
  rw [← hx] at hxpos
  norm_num at hxpos

/-- C6: `moveStart(v)` preserves the start-control delta while `setStart(v)`
preserves the absolute start-control point (so whenever `v` differs from
the current start anchor, the delta changes); symmetrically for
`moveEnd`/`setEnd` at the end anchor. -/
theorem c6_move_vs_set (w : World) (i : ℕ) (v : Vec) :
    ((moveStartW w i v) i).getStartControlDelta = (w i).getStartControlDelta ∧
    ((setStart w i v true) i).getStartControl = (w i).getStartControl ∧
    (v ≠ (w i).start →
      ((setStart w i v true) i).getStartControlDelta ≠ (w i).getStartControlDelta) ∧
    ((moveEndW w i v) i).getEndControlDelta = (w i).getEndControlDelta ∧
    ((setEnd w i v true) i).getEndControl = (w i).getEndControl ∧
    (v ≠ (w i).endPt →
      ((setEnd w i v true) i).getEndControlDelta ≠ (w i).getEndControlDelta) := by
  obtain ⟨hs1, hs2⟩ := setStart_startControl w i v
  obtain ⟨he1, he2⟩ := setEnd_endControl w i v
  refine ⟨?_, ?_, ?_, ?_, ?_, ?_⟩
  · simp [moveStartW, Segment.moveStart, Segment.getStartControlDelta, updateSeg, Vec.add,
      Vec.sub]
  · simp [Segment.getStartControl, hs1]
  · intro hv heq
    rw [Segment.getStartControlDelta, Segment.getStartControlDelta, hs1, hs2] at heq
    simp only [Vec.sub, Vec.mk.injEq, sub_right_inj] at heq
    exact hv (Vec.ext heq.1 heq.2)
  · simp [moveEndW, Segment.moveEnd, Segment.getEndControlDelta, updateSeg, Vec.add, Vec.sub]
  · simp [Segment.getEndControl, he1]
  · intro hv heq
    rw [Segment.getEndControlDelta, Segment.getEndControlDelta, he1, he2] at heq
    simp only [Vec.sub, Vec.mk.injEq, sub_right_inj] at heq
    exact hv (Vec.ext heq.1 heq.2)

/-- Witness for C6 at a concrete segment: moving/setting the start of
segment 0 of the C1 world to `(7,9)`, which differs from its anchors. -/
theorem c6_move_vs_set_witness :
    ((moveStartW wC1 0 ⟨7, 9⟩) 0).getStartControlDelta = (wC1 0).getStartControlDelta ∧
    ((setStart wC1 0 ⟨7, 9⟩ true) 0).getStartControlDelta ≠ (wC1 0).getStartControlDelta :=
  ⟨(c6_move_vs_set wC1 0 ⟨7, 9⟩).1,
    (c6_move_vs_set wC1 0 ⟨7, 9⟩).2.2.1 (by simp [wC1, segA1])⟩

/-- C7: `setStartDirection((1,0))` on a segment whose start-control delta is
`(2,0)` (length 2) leaves a start-control delta of length 0, not 2: the
delta setter stores `vec.sub(start)` instead of `vec.add(start)`. -/
theorem c7_delta_length_lost :
    segC7.getStartControlDelta.length = 2 ∧
    (segC7.setStartDirection ⟨1, 0⟩).getStartControlDelta.length = 0 := by
  have hn : Vec.normalize ⟨(1 : ℝ), 0⟩ = ⟨1, 0⟩ := by
    simpa using Vec.normalize_eval 1 0 1 one_pos (by norm_num)
  have h2 : Vec.length ⟨(2 : ℝ), 0⟩ = 2 := Vec.length_eval 2 0 2 (by norm_num) (by norm_num)
  have h0 : Vec.length ⟨(0 : ℝ), 0⟩ = 0 := by
    simp [Vec.length]
  constructor
  · have hd : segC7.getStartControlDelta = ⟨2, 0⟩ := by
      norm_num [segC7, Segment.getStartControlDelta, Vec.sub]
    rw [hd, h2]
  · have hd : (segC7.setStartDirection ⟨1, 0⟩).getStartControlDelta = ⟨0, 0⟩ := by
      norm_num [segC7, Segment.setStartDirection, Segment.setStartControlDelta,
        Segment.getStartControlDelta, Vec.sub, Vec.mul, hn, h2]
    rw [hd, h0]

/-- C8: on the four-point constructor the absolute control points are not
returned by `getStartControl`/`getEndControl`: constructing with
`startControl = (2,3)` (and `start = (1,1)`) yields
`getStartControl() = (1,2)`, because the constructor stores
`startControl.sub(start)` while the getter returns the raw field. -/
theorem c8_control_roundtrip_broken :
    (Segment.mkBezierSegmentState ⟨1, 1⟩ ⟨2, 3⟩ ⟨4, 4⟩ ⟨10, 0⟩).getStartControl = ⟨1, 2⟩ ∧
    (Segment.mkBezierSegmentState ⟨1, 1⟩ ⟨2, 3⟩ ⟨4, 4⟩ ⟨10, 0⟩).getStartControl ≠ ⟨2, 3⟩ ∧
    (Segment.mkBezierSegmentState ⟨1, 1⟩ ⟨2, 3⟩ ⟨4, 4⟩ ⟨10, 0⟩).getEndControl = ⟨-6, 4⟩ ∧
    (Segment.mkBezierSegmentState ⟨1, 1⟩ ⟨2, 3⟩ ⟨4, 4⟩ ⟨10, 0⟩).getEndControl ≠ ⟨4, 4⟩ := by
  norm_num [Segment.mkBezierSegmentState, Segment.getStartControl, Segment.getEndControl,
    Vec.sub, Vec.mk.injEq]

/-- C9 counterexample: `A.setNextSegment(null)` with default arguments does
NOT clear the relation on the calling side only: B's `previous` relation
(initially A) is cleared as well, by the `current.setPreviousSegment(null,
false)` call that runs because `sync` defaults to true. -/
theorem c9_unlink_clears_neighbor :
    (wC9 1).getPreviousSegment = some 0 ∧
    ((setNextSegmentD wC9 0 none) 1).getPreviousSegment = none := by
  simp [setNextSegmentD, setNextSegment, setPrevNS, wC9, segA9, segB9, updateSeg,
    Segment.getPreviousSegment]

/-- C9 amended: on a linked pair, `setNextSegment(null)` with default
arguments clears BOTH sides of the relation (the caller's `next` directly
and the neighbor's `previous` through the non-reciprocal sync call), and
`setPreviousSegment(null)` symmetrically; neither call changes any of the
four point fields of either segment, and both segments keep existing. -/
theorem c9_unlink_both_sides (w : World) (a b : ℕ)
    (h1 : (w a).next = some b) (h2 : (w b).previous = some a) :
    ((setNextSegment w a none true false) a).getNextSegment = none ∧
    ((setNextSegment w a none true false) b).getPreviousSegment = none ∧
    ((setNextSegment w a none true false) a).start = (w a).start ∧
    ((setNextSegment w a none true false) a).startControl = (w a).startControl ∧
    ((setNextSegment w a none true false) a).endControl = (w a).endControl ∧
    ((setNextSegment w a none true false) a).endPt = (w a).endPt ∧
    ((setNextSegment w a none true false) b).start = (w b).start ∧
    ((setNextSegment w a none true false) b).startControl = (w b).startControl ∧
    ((setNextSegment w a none true false) b).endControl = (w b).endControl ∧
    ((setNextSegment w a none true false) b).endPt = (w b).endPt ∧
    ((setPreviousSegment w b none true true) b).getPreviousSegment = none ∧
    ((setPreviousSegment w b none true true) a).getNextSegment = none ∧
    ((setPreviousSegment w b none true true) a).start = (w a).start ∧
    ((setPreviousSegment w b none true true) a).startControl = (w a).startControl ∧
    ((setPreviousSegment w b none true true) a).endControl = (w a).endControl ∧
    ((setPreviousSegment w b none true true) a).endPt = (w a).endPt ∧
    ((setPreviousSegment w b none true true) b).start = (w b).start ∧
    ((setPreviousSegment w b none true true) b).startControl = (w b).startControl ∧
    ((setPreviousSegment w b none true true) b).endControl = (w b).endControl ∧
    ((setPreviousSegment w b none true true) b).endPt = (w b).endPt := by
  simp only [setNextSegment, setPreviousSegment, setPrevNS, setNextNS, h1, h2,
    Segment.getNextSegment, Segment.getPreviousSegment, Segment.getEnd, Segment.getStart,
    updateSeg]
  simp only [reduceCtorEq, if_false, ite_false]
  by_cases hab : a = b
  · simp_all [updateSeg]
  · have hba : ¬b = a := fun h => hab h.symm
    simp_all [updateSeg]

/-- Witness for the C9 amended theorem at the concrete linked pair of
`wC9`: unlinking from A's side clears B's `previous` relation too. -/
theorem c9_unlink_both_sides_witness :
    ((setNextSegment wC9 0 none true false) 1).getPreviousSegment = none ∧
    ((setNextSegment wC9 0 none true false) 0).getNextSegment = none :=
  ⟨(c9_unlink_both_sides wC9 0 1 (by simp [wC9, segA9]) (by simp [wC9, segB9])).2.1,
    (c9_unlink_both_sides wC9 0 1 (by simp [wC9, segA9]) (by simp [wC9, segB9])).1⟩

/-- C10 counterexample: the reciprocal side of a link DOES copy direction.
`A.setNextSegment(B)` with default arguments triggers the reciprocal
`B.setPreviousSegment(A, false)`, whose omitted `copyDirection` defaults to
true, so B's start control is rewritten from `(1,0)` to `(-3/5,-4/5)`
(the negated end direction of A, scaled by B's delta length 1). -/
theorem c10_reciprocal_copies_direction :
    (wC10 1).getStartControl = ⟨1, 0⟩ ∧
    ((setNextSegmentD wC10 0 (some 1)) 1).getStartControl = ⟨-(3 / 5), -(4 / 5)⟩ ∧
    ((setNextSegmentD wC10 0 (some 1)) 1).getStartControl ≠ (wC10 1).getStartControl := by
  obtain ⟨h1, _, h3, _, _⟩ := wC10_direction_copy_eval
  refine ⟨h1, h3, ?_⟩
  rw [h1, h3]
  norm_num [Vec.mk.injEq]

/-- C10 amended: `setPreviousSegment` defaults `copyDirection` to true, so
`B.setPreviousSegment(A)` with defaults copies direction into B's own start
control (shown mutating B's start direction at a concrete input), while its
reciprocal `setNextSegment(this, false)` call performs no direction copy
(the neighbor's end control is never changed).  `setNextSegment` leaves
`copyDirection` falsy by default, so `A.setNextSegment(B)` with defaults
performs no direction copy on A itself (A's end control is unchanged in
every world) — but its reciprocal `setPreviousSegment(this, false)` call
omits `copyDirection`, which there defaults to TRUE, so the reciprocal side
of that link does copy direction into B's start control. -/
theorem c10_direction_defaults :
    (∀ (w : World) (a b : ℕ),
      ((setNextSegmentD w a (some b)) a).getEndControl = (w a).getEndControl) ∧
    (∀ (w : World) (a b : ℕ),
      ((setPreviousSegmentD w b (some a)) a).getEndControl = (w a).getEndControl) ∧
    ((setPreviousSegmentD wC10 1 (some 0)) 1).getStartDirection ≠ (wC10 1).getStartDirection ∧
    ((setNextSegmentD wC10 0 (some 1)) 1).getStartControl ≠ (wC10 1).getStartControl := by
  obtain ⟨h1, h2, h3, h4, h5⟩ := wC10_direction_copy_eval
  refine ⟨?_, ?_, ?_, ?_⟩
  · intro w a b
    by_cases hne : (some b : Option ℕ) = (w a).next
    · simp [setNextSegmentD, setNextSegment, hne]
    · cases hcur : (w a).next with
      | none =>
        simp [setNextSegmentD, setNextSegment, hcur, setPrevNS_endControl, updateSeg,
          Segment.getEndControl]
      | some p =>
        rw [hcur] at hne
        simp [setNextSegmentD, setNextSegment, hcur, hne, setPrevNS_endControl, updateSeg,
          Segment.getEndControl]
  · intro w a b
    by_cases hne : (some a : Option ℕ) = (w b).previous
    · simp [setPreviousSegmentD, setPreviousSegment, hne]
    · cases hcur : (w b).previous with
      | none =>
        by_cases hab : a = b <;>
          simp [setPreviousSegmentD, setPreviousSegment, hcur, setNextNS_endControl_nocopy,
            updateSeg, hab, Segment.getEndControl, Segment.setStartDirection,
            Segment.setStartControlDelta]
      | some p =>
        rw [hcur] at hne
        have hap : a ≠ p := fun h => hne (by rw [h])
        by_cases hab : a = b
        · have hbp : b ≠ p := fun h => hap (hab.trans h)
          simp [setPreviousSegmentD, setPreviousSegment, hcur, hne,
            setNextNS_endControl_nocopy, setNextNS_frame, hbp, updateSeg, hab,
            Segment.getEndControl, Segment.setStartDirection, Segment.setStartControlDelta]
        · simp [setPreviousSegmentD, setPreviousSegment, hcur, hne,
            setNextNS_endControl_nocopy, updateSeg, hab, Segment.getEndControl,
            Segment.setStartDirection, Segment.setStartControlDelta]
  · rw [h2, h5]
    norm_num [Vec.mk.injEq]
  · rw [h1, h3]
    norm_num [Vec.mk.injEq]
